import Mathlib

/-!
Verification of the Lumi Agent service (`app/main.py` plus the agent
workflow graph it boots).  The bootstrap file `app/main.py` is embedded
directly; the workflow graph (`app.graph`: router, retrieval, tool and
response nodes plus the streaming coordinator) is not part of the visible
sources, so it is modelled from the specification, as marked on each
definition.
-/

namespace Lumi

/-! ## Embedding of `app/main.py` -/

/-- Log levels used by the bootstrap (loguru `info` / `warning` / `error`). -/
inductive LogLevel where
  | info
  | warning
  | error
deriving DecidableEq, Repr

/-- One structured log record emitted by the bootstrap. -/
structure LogEntry where
  level : LogLevel
  msg : String
deriving DecidableEq, Repr

/-- Process settings consumed by `app/main.py` (`app.core.config.settings`).
String-valued credentials follow Python truthiness: the unset/empty case is
the empty string. -/
structure Settings where
  upstage_api_key : String
  supabase_url : String
  supabase_key : String
  environment : String
  debug : Bool
  host : String
  port : Nat
deriving DecidableEq, Repr

/-- Embedding of `_validate_settings` (main.py lines 90-109).  The Python
body is three straight-line `if` statements that only call
`logger.warning`; the `Except` wrapper records that the control flow has no
`raise` and no fallible call, so the function returns normally. -/
def validate_settings (s : Settings) : Except String (List LogEntry) :=
  let w1 : List LogEntry :=
    if s.upstage_api_key.isEmpty then
      [⟨LogLevel.warning, "UPSTAGE_API_KEY is not set; LLM features unavailable"⟩]
    else []
  let w2 : List LogEntry :=
    if s.supabase_url.isEmpty || s.supabase_key.isEmpty then
      [⟨LogLevel.warning, "Supabase configuration incomplete; using mock data"⟩]
    else []
  let w3 : List LogEntry :=
    if s.environment = "production" && s.debug then
      [⟨LogLevel.warning, "DEBUG mode is enabled in the production environment"⟩]
    else []
  Except.ok (w1 ++ w2 ++ w3)

/-- Embedding of the CORS middleware registration (main.py line 156):
`allow_origins=["*"] if settings.debug else []`. -/
def corsAllowOrigins (s : Settings) : List String :=
  if s.debug then ["*"] else []

/-- Placeholder for the compiled graph object returned by
`get_lumi_graph`; the bootstrap treats it as opaque.  The concrete graph
model appears below. -/
structure OpaqueGraph where
  tag : Nat
deriving DecidableEq, Repr

/-- Outcome of the startup phase of `lifespan` (main.py lines 65-84):
the logs emitted before `yield`, whether the `yield` point (serving
requests) is reached, and the warm-up graph if compilation succeeded. -/
structure StartupOutcome where
  logs : List LogEntry
  serving : Bool
  graph : Option OpaqueGraph
deriving DecidableEq, Repr

/-- Embedding of the startup half of `lifespan` (main.py lines 65-84).
`graphInit` is the outcome of the `get_lumi_graph()` call inside the
`try` block: `Except.error e` stands for any exception `e` raised by graph
initialization, which the `except Exception` clause catches and logs
(line 81-82); in both branches control reaches `yield` (line 84), so
`serving` is `true`. -/
def lifespanStartup (s : Settings) (graphInit : Except String OpaqueGraph) :
    StartupOutcome :=
  let banner : List LogEntry := [⟨LogLevel.info, "Starting Lumi Agent server"⟩]
  let warnings := (validate_settings s).toOption.getD []
  match graphInit with
  | Except.ok g =>
      { logs := banner ++ warnings ++ [⟨LogLevel.info, "LangGraph graph compiled"⟩]
        serving := true
        graph := some g }
  | Except.error e =>
      { logs := banner ++ warnings ++ [⟨LogLevel.error, "LangGraph init failed: " ++ e⟩]
        serving := true
        graph := none }

/-! ## The agent workflow graph

Modelled from the spec: the module `app.graph` (router, retrieval,
tool-execution and response nodes, the stream coordinator, and
`get_lumi_graph`) is referenced by `app/main.py` but its source is not
available; every definition below follows the specification text
(sections 2-4, 6-7 of the spec). -/

/-- Modelled from the spec: identifiers of the four graph nodes
(spec section 2 and 4.6). -/
inductive NodeId where
  | Router
  | Retrieval
  | ToolExecution
  | Response
deriving DecidableEq, Repr

/-- Modelled from the spec: the closed enumeration of router decisions
(spec section 4.2). -/
inductive RouterDecision where
  | DirectResponse
  | NeedsRetrieval
  | NeedsTool
deriving DecidableEq, Repr

/-- Modelled from the spec: one prior conversation turn (role plus text,
spec section 3, ConversationState). -/
structure Turn where
  role : String
  text : String
deriving DecidableEq, Repr

/-- Modelled from the spec: one retrieved context chunk with provenance
(spec section 3 and 6, knowledge-store port). -/
structure Chunk where
  text : String
  score : Nat
  sourceId : String
deriving DecidableEq, Repr

/-- Modelled from the spec: a structured tool call emitted by the language
model (spec section 3, ToolCall). -/
structure ToolCall where
  id : Nat
  name : String
  args : List (String × String)
deriving DecidableEq, Repr

/-- Modelled from the spec: the result-or-error attached to a tool call
(spec section 3, tool results mapping). -/
inductive ToolOutcome where
  | success (result : String)
  | failure (err : String)
deriving DecidableEq, Repr

/-- True on the structured-failure variant of a tool outcome. -/
def ToolOutcome.isFailure : ToolOutcome → Bool
  | ToolOutcome.success _ => false
  | ToolOutcome.failure _ => true

/-- Modelled from the spec: the per-request conversation state threaded
through the graph (spec section 3, ConversationState). -/
structure ConversationState where
  priorTurns : List Turn
  currentInput : String
  routerDecision : Option RouterDecision
  retrievedContext : List Chunk
  warnings : List String
  pendingToolCalls : List ToolCall
  toolResults : List (Nat × ToolOutcome)
  finalResponse : Option String
deriving DecidableEq, Repr

/-- Modelled from the spec: a fresh per-request state, created with only
the current input and prior turns populated (spec sections 3 and 4.2),
plus the pending tool calls the model emitted for the turn. -/
def initState (turns : List Turn) (input : String) (calls : List ToolCall) :
    ConversationState :=
  { priorTurns := turns
    currentInput := input
    routerDecision := none
    retrievedContext := []
    warnings := []
    pendingToolCalls := calls
    toolResults := []
    finalResponse := none }

/-- Modelled from the spec: a stream event `{node id, status, payload}`
(spec section 3, StreamEvent). -/
inductive EventStatus where
  | started
  | completed
  | failed
deriving DecidableEq, Repr

/-- Modelled from the spec: one server-push progress event. -/
structure StreamEvent where
  node : NodeId
  status : EventStatus
  payload : Option String
deriving DecidableEq, Repr

/-- Modelled from the spec: a tool port `(argument schema validation,
invoke)` (spec section 6, tool ports). -/
structure ToolSpec where
  validate : List (String × String) → Bool
  invoke : List (String × String) → Except String String

/-- Modelled from the spec: the external collaborators the graph calls
through narrow ports (spec section 6): the language-model classifier, the
knowledge store, the tool catalog, and the language-model reply
synthesizer.  An `Except.error` of a port models that call raising. -/
structure Env where
  classify : String → Except String String
  store : String → Except String (List Chunk)
  tools : String → Option ToolSpec
  respond : ConversationState → Except String String

/-- Modelled from the spec: the fixed enumeration of well-formed
classifier outputs (spec section 4.2). -/
def routerOutputs : List String := ["chat", "retrieval", "tool"]

/-- Modelled from the spec: mapping of the classifier output string to a
router decision; any output outside the fixed enumeration (ambiguous or
malformed) defaults deterministically to DirectResponse (spec 4.2). -/
def parseDecision (raw : String) : RouterDecision :=
  if raw = "retrieval" then RouterDecision.NeedsRetrieval
  else if raw = "tool" then RouterDecision.NeedsTool
  else RouterDecision.DirectResponse

/-- Modelled from the spec: the successor node selected by a router
decision (spec section 4.6 state machine). -/
def nextOf : RouterDecision → NodeId
  | RouterDecision.DirectResponse => NodeId.Response
  | RouterDecision.NeedsRetrieval => NodeId.Retrieval
  | RouterDecision.NeedsTool => NodeId.ToolExecution

/-- Modelled from the spec: the bound on retrieved results (spec 4.3,
"bounded by a maximum result count"). -/
def maxResults : Nat := 5

/-- Modelled from the spec: the Router node (spec 4.2): classifies the
current input through the language-model port, records the decision, and
selects the successor.  A raised classifier call (ModelUnavailable)
propagates; a malformed output does not. -/
def routerNode (env : Env) (st : ConversationState) :
    Except String (ConversationState × Option NodeId) :=
  match env.classify st.currentInput with
  | Except.error e => Except.error e
  | Except.ok raw =>
      let d := parseDecision raw
      Except.ok ({ st with routerDecision := some d }, some (nextOf d))

/-- Modelled from the spec: the Retrieval node (spec 4.3): queries the
knowledge store, truncating to the result bound; a store error is recorded
as empty retrieved context plus a warning and execution proceeds to
Response, never raising. -/
def retrievalNode (env : Env) (st : ConversationState) :
    Except String (ConversationState × Option NodeId) :=
  match env.store st.currentInput with
  | Except.ok chunks =>
      Except.ok
        ({ st with retrievedContext := st.retrievedContext ++ chunks.take maxResults },
          some NodeId.Response)
  | Except.error e =>
      Except.ok
        ({ st with warnings := st.warnings ++ ["knowledge store unavailable: " ++ e] },
          some NodeId.Response)

/-- Modelled from the spec: resolving one schema-checked call against its
tool port (spec 4.4): on validation failure the tool is not invoked and an
error result is attached; a tool-raised error becomes a structured
failure. -/
def runToolSpec (t : ToolSpec) (c : ToolCall) : ToolOutcome :=
  if t.validate c.args then
    match t.invoke c.args with
    | Except.ok r => ToolOutcome.success r
    | Except.error e => ToolOutcome.failure e
  else ToolOutcome.failure "invalid arguments"

/-- Modelled from the spec: resolving one pending call, rejecting unknown
tool names rather than crashing (spec section 6, tool ports). -/
def execToolCall (tools : String → Option ToolSpec) (c : ToolCall) :
    Nat × ToolOutcome :=
  match tools c.name with
  | none => (c.id, ToolOutcome.failure "unknown tool")
  | some t => (c.id, runToolSpec t c)

/-- Modelled from the spec: resolving a whole batch of pending calls, in
the order the model emitted them (spec 4.4). -/
def runToolCalls (tools : String → Option ToolSpec) (calls : List ToolCall) :
    List (Nat × ToolOutcome) :=
  calls.map (execToolCall tools)

/-- Modelled from the spec: the Tool-Execution node (spec 4.4): resolves
every pending call of the turn to a result or a structured failure, then
hands control to Response; it never aborts the traversal. -/
def toolExecutionNode (env : Env) (st : ConversationState) :
    Except String (ConversationState × Option NodeId) :=
  Except.ok
    ({ st with toolResults := st.toolResults ++ runToolCalls env.tools st.pendingToolCalls },
      some NodeId.Response)

/-- Modelled from the spec: the Response node (spec 4.5): synthesizes the
final reply from accumulated state through the language-model port; it is
the terminal node.  A raised model call propagates to the coordinator. -/
def responseNode (env : Env) (st : ConversationState) :
    Except String (ConversationState × Option NodeId) :=
  match env.respond st with
  | Except.error e => Except.error e
  | Except.ok r => Except.ok ({ st with finalResponse := some r }, none)

/-- Modelled from the spec: dispatch from node identifier to node
implementation (spec section 9, identifier-to-implementation mapping). -/
def runStep (env : Env) :
    NodeId → ConversationState → Except String (ConversationState × Option NodeId)
  | NodeId.Router, st => routerNode env st
  | NodeId.Retrieval, st => retrievalNode env st
  | NodeId.ToolExecution, st => toolExecutionNode env st
  | NodeId.Response, st => responseNode env st

/-- Modelled from the spec: the Stream Coordinator loop (spec 4.6): emits
one `started` and one `completed` event per node boundary, converts a node
failure into a single terminal `failed` event, and stops.  `fuel` bounds
the walk; the graph's longest path has three nodes, so the fuel used below
is never exhausted. -/
def runFrom (env : Env) :
    Nat → NodeId → ConversationState → List StreamEvent × Option ConversationState
  | 0, _, _ => ([], none)
  | Nat.succ fuel, n, st =>
      match runStep env n st with
      | Except.error e =>
          ([⟨n, EventStatus.started, none⟩, ⟨n, EventStatus.failed, some e⟩], none)
      | Except.ok (st2, none) =>
          ([⟨n, EventStatus.started, none⟩, ⟨n, EventStatus.completed, none⟩], some st2)
      | Except.ok (st2, some n2) =>
          let rest := runFrom env fuel n2 st2
          (⟨n, EventStatus.started, none⟩ :: ⟨n, EventStatus.completed, none⟩ :: rest.1,
            rest.2)

/-- Modelled from the spec: one full streamed traversal, entering at
Router (spec 4.6 state machine). -/
def coordinator (env : Env) (st : ConversationState) :
    List StreamEvent × Option ConversationState :=
  runFrom env 4 NodeId.Router st

/-! ## Graph compilation (spec 4.1) -/

/-- Modelled from the spec: the process configuration a compilation reads:
declared nodes, declared entry, declared edges (spec 4.1 and section 3,
CompiledGraph). -/
structure GraphConfig where
  declaredNodes : List NodeId
  entry : NodeId
  edges : List (NodeId × NodeId)
deriving DecidableEq, Repr

/-- Modelled from the spec: the immutable compiled graph: node set, entry
node, edges (spec section 3, CompiledGraph). -/
structure CompiledGraph where
  nodes : List NodeId
  entry : NodeId
  edges : List (NodeId × NodeId)
deriving DecidableEq, Repr

/-- Modelled from the spec: `compile() -> CompiledGraph` (spec 4.1): pure
in the configuration; fails with a CompileError if a declared edge
references an undeclared node or the entry is undeclared. -/
def compile (cfg : GraphConfig) : Except String CompiledGraph :=
  if cfg.edges.all
        (fun e => cfg.declaredNodes.contains e.1 && cfg.declaredNodes.contains e.2)
      && cfg.declaredNodes.contains cfg.entry then
    Except.ok { nodes := cfg.declaredNodes, entry := cfg.entry, edges := cfg.edges }
  else
    Except.error "CompileError: edge references an undefined node"

/-- Modelled from the spec: the Lumi graph's own configuration (spec 4.6:
Entry to Router to one of Retrieval, ToolExecution, Response, then to
Response). -/
def lumiConfig : GraphConfig :=
  { declaredNodes := [NodeId.Router, NodeId.Retrieval, NodeId.ToolExecution, NodeId.Response]
    entry := NodeId.Router
    edges :=
      [(NodeId.Router, NodeId.Retrieval), (NodeId.Router, NodeId.ToolExecution),
        (NodeId.Router, NodeId.Response), (NodeId.Retrieval, NodeId.Response),
        (NodeId.ToolExecution, NodeId.Response)] }

/-- Modelled from the spec: `get_lumi_graph` (called by main.py line 79):
compiles once and caches the instance for the process lifetime (spec 4.1);
the cache slot is passed and returned explicitly. -/
def get_lumi_graph (cache : Option CompiledGraph) :
    Except String (CompiledGraph × Option CompiledGraph) :=
  match cache with
  | some g => Except.ok (g, some g)
  | none =>
      match compile lumiConfig with
      | Except.ok g => Except.ok (g, some g)
      | Except.error e => Except.error e

/-- The compiled form of the Lumi configuration. -/
def lumiCompiled : CompiledGraph :=
  { nodes := lumiConfig.declaredNodes
    entry := lumiConfig.entry
    edges := lumiConfig.edges }

/-! ## The append-only state invariant (spec section 3) -/

/-- An optional field is set at most once: it was still unset before, or
it is unchanged. -/
def setOnce {α : Type} (a b : Option α) : Prop :=
  a = none ∨ b = a

/-- Modelled from the spec: the ConversationState invariant (spec section
3): list fields are only appended to, optional fields are set at most once
and never overwritten, and the input fields are not mutated. -/
def statePreserved (st st2 : ConversationState) : Prop :=
  st.priorTurns <+: st2.priorTurns ∧
  st2.currentInput = st.currentInput ∧
  setOnce st.routerDecision st2.routerDecision ∧
  st.retrievedContext <+: st2.retrievedContext ∧
  st.warnings <+: st2.warnings ∧
  st2.pendingToolCalls = st.pendingToolCalls ∧
  st.toolResults <+: st2.toolResults ∧
  setOnce st.finalResponse st2.finalResponse

/-! ## Concrete sample environments (used to exhibit runs of the model) -/

/-- A small tool catalog: `echo` accepts anything, `strict` rejects every
argument list at validation. -/
def demoTools : String → Option ToolSpec := fun name =>
  if name = "echo" then
    some { validate := fun _ => true, invoke := fun _ => Except.ok "done" }
  else if name = "strict" then
    some { validate := fun _ => false, invoke := fun _ => Except.ok "unused" }
  else none

/-- An environment in which every port succeeds and the classifier picks
the direct-chat path. -/
def demoEnv : Env :=
  { classify := fun _ => Except.ok "chat"
    store := fun _ => Except.ok []
    tools := demoTools
    respond := fun _ => Except.ok "hello" }

/-- An environment whose classifier returns a string outside the fixed
enumeration. -/
def demoMalformedEnv : Env :=
  { demoEnv with classify := fun _ => Except.ok "???" }

/-- An environment on the retrieval path whose knowledge store is down. -/
def demoRetrievalFailEnv : Env :=
  { demoEnv with
    classify := fun _ => Except.ok "retrieval"
    store := fun _ => Except.error "connection refused" }

/-- An environment on the tool path. -/
def demoToolEnv : Env :=
  { demoEnv with classify := fun _ => Except.ok "tool" }

/-- A two-call batch whose second call fails schema validation. -/
def demoCalls : List ToolCall :=
  [⟨1, "echo", []⟩, ⟨2, "strict", []⟩]

/-- A fresh request state carrying the sample batch. -/
def demoState : ConversationState := initState [] "hello" demoCalls

/-! ## Helper lemmas on the coordinator loop -/

/-- Events emitted for one node that runs to completion. -/
def nodeEvents (n : NodeId) : List StreamEvent :=
  [⟨n, EventStatus.started, none⟩, ⟨n, EventStatus.completed, none⟩]

/-- Event trace of a completed direct-response traversal. -/
def directEvents : List StreamEvent :=
  nodeEvents NodeId.Router ++ nodeEvents NodeId.Response

/-- Event trace of a completed retrieval traversal. -/
def retrievalEvents : List StreamEvent :=
  nodeEvents NodeId.Router ++ nodeEvents NodeId.Retrieval ++ nodeEvents NodeId.Response

/-- Event trace of a completed tool traversal. -/
def toolEvents : List StreamEvent :=
  nodeEvents NodeId.Router ++ nodeEvents NodeId.ToolExecution ++ nodeEvents NodeId.Response

theorem runFrom_fail (env : Env) (f : Nat) (n : NodeId) (st : ConversationState)
    (e : String) (h : runStep env n st = Except.error e) :
    runFrom env (f + 1) n st =
      ([⟨n, EventStatus.started, none⟩, ⟨n, EventStatus.failed, some e⟩], none) := by
  simp [runFrom, h]

theorem runFrom_term (env : Env) (f : Nat) (n : NodeId) (st st2 : ConversationState)
    (h : runStep env n st = Except.ok (st2, none)) :
    runFrom env (f + 1) n st = (nodeEvents n, some st2) := by
  simp [runFrom, h, nodeEvents]

theorem runFrom_seq (env : Env) (f : Nat) (n n2 : NodeId) (st st2 : ConversationState)
    (h : runStep env n st = Except.ok (st2, some n2)) :
    runFrom env (f + 1) n st =
      (nodeEvents n ++ (runFrom env f n2 st2).1, (runFrom env f n2 st2).2) := by
  simp [runFrom, h, nodeEvents]

/-! ## Claims about `app/main.py` -/

/-- Claim C9: startup settings validation never raises or aborts: for every
configuration, `_validate_settings` returns normally and every log it emits
is a warning. -/
theorem validate_settings_never_raises (s : Settings) :
    ∃ w, validate_settings s = Except.ok w ∧ ∀ l ∈ w, l.level = LogLevel.warning := by
  refine ⟨_, rfl, ?_⟩
  intro l hl
  simp only [List.mem_append] at hl
  rcases hl with (h | h) | h <;> split at h <;> simp_all

/-- Witness for C9 at a fully degraded configuration: missing key, missing
Supabase settings, debug on in production. -/
theorem validate_settings_never_raises_witness :
    ∃ w, validate_settings ⟨"", "", "", "production", true, "0.0.0.0", 8000⟩ = Except.ok w ∧
      ∀ l ∈ w, l.level = LogLevel.warning :=
  validate_settings_never_raises ⟨"", "", "", "production", true, "0.0.0.0", 8000⟩

/-- Claim C10: the CORS allow-origins list is exactly `["*"]` when debug is
on and exactly `[]` when debug is off. -/
theorem cors_allow_origins_spec (s : Settings) :
    (s.debug = true → corsAllowOrigins s = ["*"]) ∧
    (s.debug = false → corsAllowOrigins s = []) := by
  constructor <;> intro h <;> simp [corsAllowOrigins, h]

/-- Witness for C10 at a debug and a non-debug configuration. -/
theorem cors_allow_origins_spec_witness :
    corsAllowOrigins ⟨"k", "u", "s", "development", true, "h", 1⟩ = ["*"] ∧
    corsAllowOrigins ⟨"k", "u", "s", "production", false, "h", 1⟩ = [] :=
  ⟨(cors_allow_origins_spec ⟨"k", "u", "s", "development", true, "h", 1⟩).1 rfl,
    (cors_allow_origins_spec ⟨"k", "u", "s", "production", false, "h", 1⟩).2 rfl⟩

/-- Claim C1: if graph warm-up raises any exception, the startup routine
catches it, logs an error, and still reaches the serving point in degraded
mode (no graph held); and the outcome of the compile attempt is fixed
during startup for every init outcome, success included — i.e. before any
request is handled. -/
theorem lifespan_catches_compile_failure (s : Settings) (e : String) :
    (lifespanStartup s (Except.error e)).serving = true ∧
    (∃ l ∈ (lifespanStartup s (Except.error e)).logs,
        l.level = LogLevel.error ∧ l.msg = "LangGraph init failed: " ++ e) ∧
    (lifespanStartup s (Except.error e)).graph = none ∧
    (∀ g, (lifespanStartup s (Except.ok g)).serving = true ∧
        (lifespanStartup s (Except.ok g)).graph = some g) := by
  refine ⟨rfl, ⟨⟨LogLevel.error, "LangGraph init failed: " ++ e⟩, ?_, rfl, rfl⟩, rfl,
    fun g => ⟨rfl, rfl⟩⟩
  simp [lifespanStartup]

/-! ## Claims about the workflow graph (spec-modelled) -/

theorem runStep_router_fail (env : Env) (st : ConversationState) (e : String)
    (hc : env.classify st.currentInput = Except.error e) :
    runStep env NodeId.Router st = Except.error e := by
  simp [runStep, routerNode, hc]

theorem runStep_router_ok (env : Env) (st : ConversationState) (raw : String)
    (hc : env.classify st.currentInput = Except.ok raw) :
    ∃ st2, runStep env NodeId.Router st =
        Except.ok (st2, some (nextOf (parseDecision raw))) ∧
      st2.currentInput = st.currentInput ∧
      st2.routerDecision = some (parseDecision raw) ∧
      st2.pendingToolCalls = st.pendingToolCalls ∧
      st2.retrievedContext = st.retrievedContext ∧
      st2.toolResults = st.toolResults ∧
      st2.warnings = st.warnings ∧
      st2.priorTurns = st.priorTurns ∧
      st2.finalResponse = st.finalResponse := by
  refine ⟨{ st with routerDecision := some (parseDecision raw) }, ?_, rfl, rfl, rfl, rfl,
    rfl, rfl, rfl, rfl⟩
  simp [runStep, routerNode, hc]

theorem retrievalNode_fields (env : Env) (st : ConversationState) :
    ∃ st2, retrievalNode env st = Except.ok (st2, some NodeId.Response) ∧
      st2.priorTurns = st.priorTurns ∧
      st2.currentInput = st.currentInput ∧
      st2.routerDecision = st.routerDecision ∧
      st.retrievedContext <+: st2.retrievedContext ∧
      st.warnings <+: st2.warnings ∧
      st2.pendingToolCalls = st.pendingToolCalls ∧
      st2.toolResults = st.toolResults ∧
      st2.finalResponse = st.finalResponse := by
  unfold retrievalNode
  cases env.store st.currentInput with
  | ok chunks =>
      exact ⟨_, rfl, rfl, rfl, rfl, List.prefix_append _ _, List.prefix_refl _, rfl, rfl, rfl⟩
  | error e =>
      exact ⟨_, rfl, rfl, rfl, rfl, List.prefix_refl _, List.prefix_append _ _, rfl, rfl, rfl⟩

theorem runStep_retrieval_ok (env : Env) (st : ConversationState) :
    ∃ st2, runStep env NodeId.Retrieval st = Except.ok (st2, some NodeId.Response) ∧
      st2.priorTurns = st.priorTurns ∧
      st2.currentInput = st.currentInput ∧
      st2.routerDecision = st.routerDecision ∧
      st.retrievedContext <+: st2.retrievedContext ∧
      st.warnings <+: st2.warnings ∧
      st2.pendingToolCalls = st.pendingToolCalls ∧
      st2.toolResults = st.toolResults ∧
      st2.finalResponse = st.finalResponse :=
  retrievalNode_fields env st

theorem runStep_tool_ok (env : Env) (st : ConversationState) :
    runStep env NodeId.ToolExecution st =
      Except.ok
        ({ st with toolResults := st.toolResults ++ runToolCalls env.tools st.pendingToolCalls },
          some NodeId.Response) :=
  rfl

theorem runStep_response_fail (env : Env) (st : ConversationState) (e : String)
    (hr : env.respond st = Except.error e) :
    runStep env NodeId.Response st = Except.error e := by
  simp [runStep, responseNode, hr]

theorem runStep_response_ok (env : Env) (st : ConversationState) (r : String)
    (hr : env.respond st = Except.ok r) :
    runStep env NodeId.Response st =
      Except.ok ({ st with finalResponse := some r }, none) := by
  simp [runStep, responseNode, hr]

theorem coordinator_completed_shape (env : Env) (st : ConversationState)
    (h : (coordinator env st).2.isSome = true) :
    (coordinator env st).1 = directEvents ∨
    (coordinator env st).1 = retrievalEvents ∨
    (coordinator env st).1 = toolEvents := by
  unfold coordinator at h ⊢
  cases hc : env.classify st.currentInput with
  | error e =>
      rw [runFrom_fail env 3 NodeId.Router st e (runStep_router_fail env st e hc)] at h
      simp at h
  | ok raw =>
      obtain ⟨st1, hst1, -⟩ := runStep_router_ok env st raw hc
      rw [runFrom_seq env 3 NodeId.Router _ st st1 hst1] at h ⊢
      cases hd : parseDecision raw <;> simp only [hd, nextOf] at h ⊢
      case DirectResponse =>
        cases hr : env.respond st1 with
        | error e2 =>
            rw [runFrom_fail env 2 NodeId.Response st1 e2
              (runStep_response_fail env st1 e2 hr)] at h
            simp at h
        | ok r =>
            rw [runFrom_term env 2 NodeId.Response st1 _
              (runStep_response_ok env st1 r hr)]
            exact Or.inl rfl
      case NeedsRetrieval =>
        obtain ⟨st2, hst2, -⟩ := runStep_retrieval_ok env st1
        rw [runFrom_seq env 2 NodeId.Retrieval _ st1 st2 hst2] at h ⊢
        cases hr : env.respond st2 with
        | error e2 =>
            rw [runFrom_fail env 1 NodeId.Response st2 e2
              (runStep_response_fail env st2 e2 hr)] at h
            simp at h
        | ok r =>
            rw [runFrom_term env 1 NodeId.Response st2 _
              (runStep_response_ok env st2 r hr)]
            refine Or.inr (Or.inl ?_)
            simp [retrievalEvents, nodeEvents]
      case NeedsTool =>
        rw [runFrom_seq env 2 NodeId.ToolExecution _ st1 _ (runStep_tool_ok env st1)] at h ⊢
        cases hr : env.respond
            { st1 with
              toolResults := st1.toolResults ++ runToolCalls env.tools st1.pendingToolCalls } with
        | error e2 =>
            rw [runFrom_fail env 1 NodeId.Response _ e2
              (runStep_response_fail env _ e2 hr)] at h
            simp at h
        | ok r =>
            rw [runFrom_term env 1 NodeId.Response _ _
              (runStep_response_ok env _ r hr)]
            refine Or.inr (Or.inr ?_)
            simp [toolEvents, nodeEvents]

/-- Claim C2: for every request whose traversal runs to completion, the
emitted StreamEvents begin with Router `started`, end with Response
`completed`, contain exactly one `started` and one `completed` event per
executed node and no `failed` event, no event appears twice, and the whole
trace is one of the three node-traversal-ordered paths of the graph. -/
theorem stream_events_wellformed (env : Env) (st : ConversationState)
    (h : (coordinator env st).2.isSome = true) :
    (coordinator env st).1.head? = some ⟨NodeId.Router, EventStatus.started, none⟩ ∧
    (coordinator env st).1.getLast? = some ⟨NodeId.Response, EventStatus.completed, none⟩ ∧
    (coordinator env st).1.Nodup ∧
    (∀ ev ∈ (coordinator env st).1, ev.status ≠ EventStatus.failed) ∧
    (∀ n : NodeId, StreamEvent.mk n EventStatus.started none ∈ (coordinator env st).1 →
      (coordinator env st).1.count ⟨n, EventStatus.started, none⟩ = 1 ∧
      (coordinator env st).1.count ⟨n, EventStatus.completed, none⟩ = 1) ∧
    ((coordinator env st).1 = directEvents ∨ (coordinator env st).1 = retrievalEvents ∨
      (coordinator env st).1 = toolEvents) := by
  rcases coordinator_completed_shape env st h with heq | heq | heq <;> rw [heq] <;>
    exact ⟨by decide, by decide, by decide, by decide,
      fun n => by cases n <;> decide, by simp⟩

/-- Witness for C2: a concrete completed traversal of the direct path. -/
theorem stream_events_wellformed_witness :
    (coordinator demoEnv demoState).2.isSome = true ∧
    ((coordinator demoEnv demoState).1.head? =
        some ⟨NodeId.Router, EventStatus.started, none⟩ ∧
      (coordinator demoEnv demoState).1.getLast? =
        some ⟨NodeId.Response, EventStatus.completed, none⟩ ∧
      (coordinator demoEnv demoState).1.Nodup ∧
      (∀ ev ∈ (coordinator demoEnv demoState).1, ev.status ≠ EventStatus.failed) ∧
      (∀ n : NodeId,
        StreamEvent.mk n EventStatus.started none ∈ (coordinator demoEnv demoState).1 →
        (coordinator demoEnv demoState).1.count ⟨n, EventStatus.started, none⟩ = 1 ∧
        (coordinator demoEnv demoState).1.count ⟨n, EventStatus.completed, none⟩ = 1) ∧
      ((coordinator demoEnv demoState).1 = directEvents ∨
        (coordinator demoEnv demoState).1 = retrievalEvents ∨
        (coordinator demoEnv demoState).1 = toolEvents)) :=
  ⟨by decide, stream_events_wellformed demoEnv demoState (by decide)⟩

/-- Claim C3: for every classifier output outside the fixed enumeration,
the Router deterministically selects the DirectResponse path: the decision
parses to DirectResponse, the router step succeeds and hands control to
Response, the traversal reaches the Response node, and no Router event is
ever a `failed` event. -/
theorem router_malformed_defaults_direct (raw : String) (env : Env)
    (st : ConversationState) (hraw : raw ∉ routerOutputs)
    (hc : env.classify st.currentInput = Except.ok raw) :
    parseDecision raw = RouterDecision.DirectResponse ∧
    routerNode env st =
      Except.ok ({ st with routerDecision := some RouterDecision.DirectResponse },
        some NodeId.Response) ∧
    StreamEvent.mk NodeId.Response EventStatus.started none ∈ (coordinator env st).1 ∧
    ∀ ev ∈ (coordinator env st).1, ev.node = NodeId.Router →
      ev.status ≠ EventStatus.failed := by
  simp only [routerOutputs, List.mem_cons, List.not_mem_nil, or_false, not_or] at hraw
  obtain ⟨h1, h2, h3⟩ := hraw
  have hpd : parseDecision raw = RouterDecision.DirectResponse := by
    simp [parseDecision, h2, h3]
  refine ⟨hpd, by simp [routerNode, hc, hpd, nextOf], ?_⟩
  unfold coordinator
  obtain ⟨st1, hst1, -⟩ := runStep_router_ok env st raw hc
  rw [hpd] at hst1
  simp only [nextOf] at hst1
  rw [runFrom_seq env 3 NodeId.Router NodeId.Response st st1 hst1]
  cases hr : env.respond st1 with
  | error e =>
      rw [runFrom_fail env 2 NodeId.Response st1 e (runStep_response_fail env st1 e hr)]
      constructor
      · simp [nodeEvents]
      · rintro ev hev hnode
        simp [nodeEvents] at hev
        rcases hev with rfl | rfl | rfl | rfl <;> simp_all
  | ok r =>
      rw [runFrom_term env 2 NodeId.Response st1 _ (runStep_response_ok env st1 r hr)]
      constructor
      · simp [nodeEvents]
      · rintro ev hev hnode
        simp [nodeEvents] at hev
        rcases hev with rfl | rfl | rfl | rfl <;> simp_all

/-- Witness for C3: the classifier output `???` is outside the fixed
enumeration and the run defaults to the direct path. -/
theorem router_malformed_defaults_direct_witness :
    "???" ∉ routerOutputs ∧
    (parseDecision "???" = RouterDecision.DirectResponse ∧
      routerNode demoMalformedEnv demoState =
        Except.ok ({ demoState with routerDecision := some RouterDecision.DirectResponse },
          some NodeId.Response) ∧
      StreamEvent.mk NodeId.Response EventStatus.started none ∈
        (coordinator demoMalformedEnv demoState).1 ∧
      ∀ ev ∈ (coordinator demoMalformedEnv demoState).1, ev.node = NodeId.Router →
        ev.status ≠ EventStatus.failed) :=
  ⟨by decide, router_malformed_defaults_direct "???" demoMalformedEnv demoState
    (by decide) rfl⟩

/-- Claim C4: for every knowledge-store failure on a NeedsRetrieval
traversal, the Retrieval node raises no exception — it records empty
retrieved context plus a warning and proceeds to Response — the traversal
completes with a reply, and the event trace is exactly the retrieval path
trace, which contains no `failed` event for Retrieval. -/
theorem retrieval_failure_recovered (env : Env) (turns : List Turn) (input : String)
    (calls : List ToolCall) (err : String)
    (hc : env.classify input = Except.ok "retrieval")
    (hs : env.store input = Except.error err)
    (hresp : ∀ s2, ∃ r, env.respond s2 = Except.ok r) :
    (∀ s2 : ConversationState, s2.currentInput = input →
      retrievalNode env s2 =
        Except.ok
          ({ s2 with warnings := s2.warnings ++ ["knowledge store unavailable: " ++ err] },
            some NodeId.Response)) ∧
    (∃ stf, (coordinator env (initState turns input calls)).2 = some stf ∧
      stf.finalResponse.isSome = true ∧
      stf.retrievedContext = [] ∧
      "knowledge store unavailable: " ++ err ∈ stf.warnings) ∧
    (coordinator env (initState turns input calls)).1 = retrievalEvents := by
  have hnode : ∀ s2 : ConversationState, s2.currentInput = input →
      retrievalNode env s2 =
        Except.ok
          ({ s2 with warnings := s2.warnings ++ ["knowledge store unavailable: " ++ err] },
            some NodeId.Response) := by
    intro s2 h2
    simp [retrievalNode, h2, hs]
  refine ⟨hnode, ?_⟩
  unfold coordinator
  obtain ⟨st1, hst1, hcur1, hrd1, hpc1, hrc1, htr1, hw1⟩ :=
    runStep_router_ok env (initState turns input calls) "retrieval" hc
  have hpd : parseDecision "retrieval" = RouterDecision.NeedsRetrieval := rfl
  rw [hpd] at hst1
  simp only [nextOf] at hst1
  rw [runFrom_seq env 3 NodeId.Router NodeId.Retrieval _ st1 hst1]
  have hst2 : runStep env NodeId.Retrieval st1 =
      Except.ok
        ({ st1 with warnings := st1.warnings ++ ["knowledge store unavailable: " ++ err] },
          some NodeId.Response) := by
    show retrievalNode env st1 = _
    exact hnode st1 hcur1
  rw [runFrom_seq env 2 NodeId.Retrieval NodeId.Response st1 _ hst2]
  obtain ⟨r, hr⟩ :=
    hresp { st1 with warnings := st1.warnings ++ ["knowledge store unavailable: " ++ err] }
  rw [runFrom_term env 1 NodeId.Response _ _ (runStep_response_ok env _ r hr)]
  constructor
  · refine ⟨_, rfl, rfl, ?_, ?_⟩
    · simp only []
      rw [hrc1]
      rfl
    · simp [hw1, initState]
  · simp [retrievalEvents, nodeEvents]

/-- Witness for C4: a concrete run in which the store is unreachable. -/
theorem retrieval_failure_recovered_witness :
    (∀ s2 : ConversationState, s2.currentInput = "hello" →
      retrievalNode demoRetrievalFailEnv s2 =
        Except.ok
          ({ s2 with
              warnings := s2.warnings ++
                ["knowledge store unavailable: " ++ "connection refused"] },
            some NodeId.Response)) ∧
    (∃ stf, (coordinator demoRetrievalFailEnv (initState [] "hello" demoCalls)).2 = some stf ∧
      stf.finalResponse.isSome = true ∧
      stf.retrievedContext = [] ∧
      "knowledge store unavailable: " ++ "connection refused" ∈ stf.warnings) ∧
    (coordinator demoRetrievalFailEnv (initState [] "hello" demoCalls)).1 =
      retrievalEvents :=
  retrieval_failure_recovered demoRetrievalFailEnv [] "hello" demoCalls
    "connection refused" rfl rfl (fun _ => ⟨"hello", rfl⟩)

/-- Claim C5: when some call in the turn's batch fails (validation failure,
unknown tool, or tool-raised error), its structured failure is attached to
state, every other call in the batch is still executed and its result is
present in the final state, and the traversal completes rather than being
rolled back. -/
theorem tool_batch_no_rollback (env : Env) (turns : List Turn) (input : String)
    (calls : List ToolCall) (c : ToolCall)
    (hc : env.classify input = Except.ok "tool")
    (hresp : ∀ s2, ∃ r, env.respond s2 = Except.ok r)
    (hmem : c ∈ calls)
    (hfail : (execToolCall env.tools c).2.isFailure = true) :
    ∃ stf, (coordinator env (initState turns input calls)).2 = some stf ∧
      stf.toolResults = runToolCalls env.tools calls ∧
      execToolCall env.tools c ∈ stf.toolResults ∧
      (execToolCall env.tools c).2.isFailure = true ∧
      (∀ c2 ∈ calls, execToolCall env.tools c2 ∈ stf.toolResults) ∧
      stf.finalResponse.isSome = true := by
  unfold coordinator
  obtain ⟨st1, hst1, hcur1, hrd1, hpc1, hrc1, htr1, hw1⟩ :=
    runStep_router_ok env (initState turns input calls) "tool" hc
  have hpd : parseDecision "tool" = RouterDecision.NeedsTool := rfl
  rw [hpd] at hst1
  simp only [nextOf] at hst1
  rw [runFrom_seq env 3 NodeId.Router NodeId.ToolExecution _ st1 hst1]
  rw [runFrom_seq env 2 NodeId.ToolExecution NodeId.Response st1 _ (runStep_tool_ok env st1)]
  obtain ⟨r, hr⟩ :=
    hresp { st1 with toolResults := st1.toolResults ++ runToolCalls env.tools st1.pendingToolCalls }
  rw [runFrom_term env 1 NodeId.Response _ _ (runStep_response_ok env _ r hr)]
  have hres : st1.toolResults ++ runToolCalls env.tools st1.pendingToolCalls =
      runToolCalls env.tools calls := by
    rw [htr1, hpc1]
    rfl
  refine ⟨_, rfl, hres, ?_, hfail, ?_, rfl⟩
  · rw [hres]
    exact List.mem_map_of_mem _ hmem
  · intro c2 hmem2
    rw [hres]
    exact List.mem_map_of_mem _ hmem2

/-- Witness for C5: the `strict` call of the sample batch fails validation
while the `echo` call's result is still present. -/
theorem tool_batch_no_rollback_witness :
    ∃ stf, (coordinator demoToolEnv (initState [] "hello" demoCalls)).2 = some stf ∧
      stf.toolResults = runToolCalls demoToolEnv.tools demoCalls ∧
      execToolCall demoToolEnv.tools ⟨2, "strict", []⟩ ∈ stf.toolResults ∧
      (execToolCall demoToolEnv.tools ⟨2, "strict", []⟩).2.isFailure = true ∧
      (∀ c2 ∈ demoCalls, execToolCall demoToolEnv.tools c2 ∈ stf.toolResults) ∧
      stf.finalResponse.isSome = true :=
  tool_batch_no_rollback demoToolEnv [] "hello" demoCalls ⟨2, "strict", []⟩ rfl
    (fun _ => ⟨"hello", rfl⟩) (by decide) (by decide)

theorem execToolCall_fst (tools : String → Option ToolSpec) (c : ToolCall) :
    (execToolCall tools c).1 = c.id := by
  unfold execToolCall
  cases tools c.name <;> rfl

/-- Claim C6: the Tool-Execution node resolves pending calls strictly in
the order the model emitted them (the attached result ids are the call ids
in emission order); a call failing schema validation gets an error result
whatever the tool's invoke behaviour is, i.e. without the tool being
invoked; and control passes to Response only together with a result or
failure for every pending call of the turn. -/
theorem tool_execution_ordered_and_validated (env : Env) (st : ConversationState)
    (c : ToolCall) (t : ToolSpec)
    (hname : env.tools c.name = some t) (hval : t.validate c.args = false) :
    (runToolCalls env.tools st.pendingToolCalls).map Prod.fst =
      st.pendingToolCalls.map ToolCall.id ∧
    (∀ inv : List (String × String) → Except String String,
      runToolSpec { validate := t.validate, invoke := inv } c =
        ToolOutcome.failure "invalid arguments") ∧
    execToolCall env.tools c = (c.id, ToolOutcome.failure "invalid arguments") ∧
    toolExecutionNode env st =
      Except.ok
        ({ st with toolResults := st.toolResults ++ runToolCalls env.tools st.pendingToolCalls },
          some NodeId.Response) ∧
    (runToolCalls env.tools st.pendingToolCalls).length = st.pendingToolCalls.length := by
  refine ⟨?_, ?_, ?_, rfl, by simp [runToolCalls]⟩
  · unfold runToolCalls
    rw [List.map_map]
    exact List.map_congr_left (fun a _ => execToolCall_fst env.tools a)
  · intro inv
    simp [runToolSpec, hval]
  · simp [execToolCall, hname, runToolSpec, hval]

/-- Witness for C6: the `strict` tool of the sample catalog rejects the
second call of the sample batch at validation. -/
theorem tool_execution_ordered_and_validated_witness :
    (runToolCalls demoToolEnv.tools demoState.pendingToolCalls).map Prod.fst =
      demoState.pendingToolCalls.map ToolCall.id ∧
    (∀ inv : List (String × String) → Except String String,
      runToolSpec { validate := fun _ => false, invoke := inv } (⟨2, "strict", []⟩ : ToolCall) =
        ToolOutcome.failure "invalid arguments") ∧
    execToolCall demoToolEnv.tools ⟨2, "strict", []⟩ =
      (2, ToolOutcome.failure "invalid arguments") ∧
    toolExecutionNode demoToolEnv demoState =
      Except.ok
        ({ demoState with
            toolResults := demoState.toolResults ++
              runToolCalls demoToolEnv.tools demoState.pendingToolCalls },
          some NodeId.Response) ∧
    (runToolCalls demoToolEnv.tools demoState.pendingToolCalls).length =
      demoState.pendingToolCalls.length :=
  tool_execution_ordered_and_validated demoToolEnv demoState ⟨2, "strict", []⟩
    { validate := fun _ => false, invoke := fun _ => Except.ok "unused" } rfl rfl

/-- Claim C7: graph compilation is idempotent — two compilations under the
same configuration yield the same node set, entry node and edges — and the
warm-up call compiles once, stores the instance in the process cache, and
every later call returns the cached instance unchanged. -/
theorem compile_idempotent (cfg : GraphConfig) (g1 g2 : CompiledGraph)
    (h1 : compile cfg = Except.ok g1) (h2 : compile cfg = Except.ok g2) :
    (g1.nodes = g2.nodes ∧ g1.entry = g2.entry ∧ g1.edges = g2.edges) ∧
    (∀ g, get_lumi_graph (some g) = Except.ok (g, some g)) ∧
    (∀ g cache2, get_lumi_graph none = Except.ok (g, cache2) → cache2 = some g) := by
  refine ⟨?_, fun g => rfl, ?_⟩
  · rw [h1] at h2
    injection h2 with h3
    rw [h3]
    exact ⟨rfl, rfl, rfl⟩
  · intro g cache2 h
    simp only [get_lumi_graph] at h
    cases hcomp : compile lumiConfig with
    | ok gc =>
        rw [hcomp] at h
        injection h with h3
        injection h3 with h4 h5
        rw [← h5, h4]
    | error e =>
        rw [hcomp] at h
        cases h

/-- Witness for C7 at the Lumi configuration itself. -/
theorem compile_idempotent_witness :
    compile lumiConfig = Except.ok lumiCompiled ∧
    ((lumiCompiled.nodes = lumiCompiled.nodes ∧ lumiCompiled.entry = lumiCompiled.entry ∧
        lumiCompiled.edges = lumiCompiled.edges) ∧
      (∀ g, get_lumi_graph (some g) = Except.ok (g, some g)) ∧
      (∀ g cache2, get_lumi_graph none = Except.ok (g, cache2) → cache2 = some g)) :=
  ⟨rfl, compile_idempotent lumiConfig lumiCompiled lumiCompiled rfl rfl⟩

/-- Claim C8: every node preserves the append-only ConversationState
invariant — a successful step appends to list fields only and sets each
optional field at most once, never overwriting a value another node
finalized (Router runs with the decision still unset, Response with the
reply still unset) — and consequently a whole completed traversal from a
fresh request state preserves the invariant end to end. -/
theorem state_append_only :
    (∀ (env : Env) (n : NodeId) (st st2 : ConversationState) (nx : Option NodeId),
      (n = NodeId.Router → st.routerDecision = none) →
      (n = NodeId.Response → st.finalResponse = none) →
      runStep env n st = Except.ok (st2, nx) → statePreserved st st2) ∧
    (∀ (env : Env) (turns : List Turn) (input : String) (calls : List ToolCall)
        (stf : ConversationState),
      (coordinator env (initState turns input calls)).2 = some stf →
      statePreserved (initState turns input calls) stf) := by
  constructor
  · intro env n st st2 nx hrd hfr h
    cases n with
    | Router =>
        have hrd2 := hrd rfl
        cases hc : env.classify st.currentInput with
        | error e =>
            rw [runStep_router_fail env st e hc] at h
            cases h
        | ok raw =>
            have heq : runStep env NodeId.Router st =
                Except.ok ({ st with routerDecision := some (parseDecision raw) },
                  some (nextOf (parseDecision raw))) := by
              simp [runStep, routerNode, hc]
            rw [heq] at h
            injection h with hp
            injection hp with ha hb
            rw [← ha]
            simp [statePreserved, setOnce, hrd2, List.prefix_refl]
    | Retrieval =>
        obtain ⟨st3, hst3, f1, f2, f3, f4, f5, f6, f7, f8⟩ := runStep_retrieval_ok env st
        rw [hst3] at h
        injection h with hp
        injection hp with ha hb
        rw [← ha]
        refine ⟨?_, f2, Or.inr f3, f4, f5, f6, ?_, Or.inr f8⟩
        · rw [f1]
        · rw [f7]
    | ToolExecution =>
        rw [runStep_tool_ok env st] at h
        injection h with hp
        injection hp with ha hb
        rw [← ha]
        simp [statePreserved, setOnce, List.prefix_refl, List.prefix_append]
    | Response =>
        have hfr2 := hfr rfl
        cases hr : env.respond st with
        | error e =>
            rw [runStep_response_fail env st e hr] at h
            cases h
        | ok r =>
            rw [runStep_response_ok env st r hr] at h
            injection h with hp
            injection hp with ha hb
            rw [← ha]
            simp [statePreserved, setOnce, hfr2, List.prefix_refl]
  · intro env turns input calls stf hstf
    unfold coordinator at hstf
    cases hc : env.classify (initState turns input calls).currentInput with
    | error e =>
        rw [runFrom_fail env 3 NodeId.Router _ e (runStep_router_fail env _ e hc)] at hstf
        cases hstf
    | ok raw =>
        obtain ⟨st1, hst1, hcur1, hrd1, hpc1, hrc1, htr1, hw1, hpt1, hfr1⟩ :=
          runStep_router_ok env (initState turns input calls) raw hc
        rw [runFrom_seq env 3 NodeId.Router _ _ st1 hst1] at hstf
        cases hd : parseDecision raw <;> simp only [hd, nextOf] at hstf
        case DirectResponse =>
          cases hr : env.respond st1 with
          | error e =>
              rw [runFrom_fail env 2 NodeId.Response st1 e
                (runStep_response_fail env st1 e hr)] at hstf
              cases hstf
          | ok r =>
              rw [runFrom_term env 2 NodeId.Response st1 _
                (runStep_response_ok env st1 r hr)] at hstf
              simp only [Option.some.injEq] at hstf
              subst hstf
              simp [statePreserved, setOnce, initState, hpt1, hcur1, hrd1, hpc1, hrc1,
                htr1, hw1, List.prefix_refl, List.nil_prefix]
        case NeedsRetrieval =>
          obtain ⟨st2, hst2, g1, g2, g3, g4, g5, g6, g7, g8⟩ := runStep_retrieval_ok env st1
          rw [runFrom_seq env 2 NodeId.Retrieval NodeId.Response st1 st2 hst2] at hstf
          cases hr : env.respond st2 with
          | error e =>
              rw [runFrom_fail env 1 NodeId.Response st2 e
                (runStep_response_fail env st2 e hr)] at hstf
              cases hstf
          | ok r =>
              rw [runFrom_term env 1 NodeId.Response st2 _
                (runStep_response_ok env st2 r hr)] at hstf
              simp only [Option.some.injEq] at hstf
              subst hstf
              simp [statePreserved, setOnce, initState, g1, g2, g6, hpt1, hcur1, hpc1,
                List.prefix_refl, List.nil_prefix]
        case NeedsTool =>
          rw [runFrom_seq env 2 NodeId.ToolExecution NodeId.Response st1 _
            (runStep_tool_ok env st1)] at hstf
          cases hr : env.respond
              { st1 with
                toolResults := st1.toolResults ++
                  runToolCalls env.tools st1.pendingToolCalls } with
          | error e =>
              rw [runFrom_fail env 1 NodeId.Response _ e
                (runStep_response_fail env _ e hr)] at hstf
              cases hstf
          | ok r =>
              rw [runFrom_term env 1 NodeId.Response _ _
                (runStep_response_ok env _ r hr)] at hstf
              simp only [Option.some.injEq] at hstf
              subst hstf
              simp [statePreserved, setOnce, initState, hpt1, hcur1, hpc1,
                List.prefix_refl, List.nil_prefix]

/-- Witness for C8: the concrete direct-path run preserves the invariant
between the fresh state and the final state. -/
theorem state_append_only_witness :
    (coordinator demoEnv demoState).2 =
      some { priorTurns := [], currentInput := "hello",
             routerDecision := some RouterDecision.DirectResponse,
             retrievedContext := [], warnings := [], pendingToolCalls := demoCalls,
             toolResults := [], finalResponse := some "hello" } ∧
    statePreserved demoState
      { priorTurns := [], currentInput := "hello",
        routerDecision := some RouterDecision.DirectResponse,
        retrievedContext := [], warnings := [], pendingToolCalls := demoCalls,
        toolResults := [], finalResponse := some "hello" } :=
  ⟨by decide, state_append_only.2 demoEnv [] "hello" demoCalls _ (by decide)⟩

end Lumi
